import Mathlib

/-!
Shallow embedding of `gedcom_to_csv_converter.py`: a GEDCOM line parser
(`GedcomParser.parse`) that assembles individual and family records from a
level-tagged line format, and a CSV projector (`GedcomParser.to_csv`) that
serializes the individuals collection.  String primitives from Python
(`str.strip`, `str.rstrip`, `str.split(' ', 2)`, `str.split('\n')`,
`str.strip('@')`, `str.replace('/', '')`) are modelled structurally over
`List Char` so that every definition evaluates by kernel reduction.
-/

/-- ASCII characters Python treats as whitespace in `str.strip` / `str.rstrip`. -/
def isPySpace (c : Char) : Bool :=
  c = ' ' || c = '\t' || c = '\n' || c = '\r' || c = '\x0b' || c = '\x0c'

/-- Drop the longest suffix of `l` all of whose characters satisfy `p`. -/
def dropRightWhileL (p : Char → Bool) (l : List Char) : List Char :=
  (l.reverse.dropWhile p).reverse

/-- Python `line.rstrip()`. -/
def pyRstrip (s : String) : String :=
  String.mk (dropRightWhileL isPySpace s.data)

/-- Python `content.strip()`. -/
def pyStrip (s : String) : String :=
  String.mk (dropRightWhileL isPySpace (s.data.dropWhile isPySpace))

/-- Python `s.strip('@')`: remove all leading and trailing `@` characters. -/
def stripAts (s : String) : String :=
  String.mk (dropRightWhileL (· = '@') (s.data.dropWhile (· = '@')))

/-- Python `value.replace('/', '')`: delete every `/`. -/
def removeSlashes (s : String) : String :=
  String.mk (s.data.filter (· ≠ '/'))

/-- Python `content.split('\n')`: split on every newline, keeping empty pieces
(`"".split('\n') == ['']`). -/
def splitNl : List Char → List (List Char)
  | [] => [[]]
  | c :: cs =>
    if c = '\n' then [] :: splitNl cs
    else
      match splitNl cs with
      | [] => [[c]]
      | l :: ls => (c :: l) :: ls

/-- Break a character list at its first space: the part before, and (when a
space exists) the remainder after it. -/
def breakSp : List Char → List Char × Option (List Char)
  | [] => ([], none)
  | c :: cs =>
    if c = ' ' then ([], some cs)
    else
      let p := breakSp cs
      (c :: p.1, p.2)

/-- Python `line.split(' ', 2)`: at most two splits on single spaces, the third
piece being the raw remainder of the line. -/
def pySplit2 (s : String) : List String :=
  match breakSp s.data with
  | (a, none) => [String.mk a]
  | (a, some r1) =>
    match breakSp r1 with
    | (b, none) => [String.mk a, String.mk b]
    | (b, some r2) => [String.mk a, String.mk b, String.mk r2]

/-- The loosely-typed record dictionary built by the parser.  `ID` and `type`
are set at creation (level-0 line); every other key is absent (`none` /
`false`) until a line sets it.  `birtNext` and `deatNext` model the
`_BIRT_NEXT` / `_DEAT_NEXT` sentinel keys. -/
structure Record where
  ID : String
  type : String
  Name : Option String := none
  Sex : Option String := none
  birthDate : Option String := none
  birthPlace : Option String := none
  deathDate : Option String := none
  deathPlace : Option String := none
  birtNext : Bool := false
  deatNext : Bool := false
  Husband : Option String := none
  Wife : Option String := none
  Children : Option (List String) := none
  deriving DecidableEq, Repr

/-- The parser loop state: the open record (if any), its type tag, and the
two collections built so far. -/
structure ParseState where
  currentRecord : Option Record := none
  currentType : Option String := none
  individuals : List Record := []
  families : List Record := []
  deriving DecidableEq, Repr

namespace GedcomParser

/-- Model of the save-previous-record block: append the open record to the collection
named by `currentType` (lines 50-54 and 110-114 of the source). -/
def saveRecord (st : ParseState) : ParseState :=
  match st.currentRecord, st.currentType with
  | some r, some t =>
    if t = "INDI" then { st with individuals := st.individuals ++ [r] }
    else if t = "FAM" then { st with families := st.families ++ [r] }
    else st
  | _, _ => st

/-- Forget the open record (`current_record = None; current_type = None`). -/
def clearCurrent (st : ParseState) : ParseState :=
  { st with currentRecord := none, currentType := none }

/-- The level-`'0'` branch: save the open record, then open a new one when the
line has three fields and its type tag is `INDI` or `FAM`. -/
def handleLevel0 (st : ParseState) (parts : List String) : ParseState :=
  let st1 := saveRecord st
  if 3 ≤ parts.length then
    let recordId := (parts[1]?).getD ""
    let recordType := (parts[2]?).getD ""
    if recordType = "INDI" || recordType = "FAM" then
      { st1 with
        currentRecord := some { ID := stripAts recordId, type := recordType },
        currentType := some recordType }
    else clearCurrent st1
  else clearCurrent st1

/-- The level-`'1'` tag dispatch on an open record (source lines 71-90). -/
def handleLevel1 (r : Record) (tag value : String) : Record :=
  if tag = "NAME" then { r with Name := some (removeSlashes value) }
  else if tag = "SEX" then { r with Sex := some value }
  else if tag = "BIRT" then { r with birtNext := true }
  else if tag = "DEAT" then { r with deatNext := true }
  else if tag = "HUSB" then { r with Husband := some (stripAts value) }
  else if tag = "WIFE" then { r with Wife := some (stripAts value) }
  else if tag = "CHIL" then
    { r with Children := some ((r.Children).getD [] ++ [stripAts value]) }
  else r

/-- The level-`'2'` tag dispatch on an open record (source lines 92-107):
`DATE` consumes the birth flag first, else the death flag; `PLAC` reads the
flags without clearing them. -/
def handleLevel2 (r : Record) (tag value : String) : Record :=
  if tag = "DATE" then
    if r.birtNext then { r with birthDate := some value, birtNext := false }
    else if r.deatNext then { r with deathDate := some value, deatNext := false }
    else r
  else if tag = "PLAC" then
    if r.birtNext then { r with birthPlace := some value }
    else if r.deatNext then { r with deathPlace := some value }
    else r
  else r

/-- One iteration of the parse loop body (source lines 40-107). -/
def processLine (st : ParseState) (rawLine : String) : ParseState :=
  let line := pyRstrip rawLine
  if line = "" then st
  else
    let parts := pySplit2 line
    let level := (parts[0]?).getD ""
    if level = "0" then handleLevel0 st parts
    else if level = "1" then
      match st.currentRecord with
      | some r =>
        let tag := (parts[1]?).getD ""
        let value := (parts[2]?).getD ""
        { st with currentRecord := some (handleLevel1 r tag value) }
      | none => st
    else if level = "2" then
      match st.currentRecord with
      | some r =>
        let tag := (parts[1]?).getD ""
        let value := (parts[2]?).getD ""
        { st with currentRecord := some (handleLevel2 r tag value) }
      | none => st
    else st

/-- Model of `GedcomParser.parse`: strip the content, split into lines, fold the loop
body, then save the last open record. -/
def parse (content : String) : ParseState :=
  saveRecord (((splitNl (pyStrip content).data).map String.mk).foldl processLine {})

/-- Whether the csv writer must quote a field: it contains the delimiter, the
quote character, or a character of the `\r\n` line terminator. -/
def needsQuote (s : String) : Bool :=
  s.data.any fun c => c = ',' || c = '"' || c = '\r' || c = '\n'

/-- Double every `"` inside a quoted field. -/
def escapeQuotes : List Char → List Char
  | [] => []
  | c :: cs =>
    if c = '"' then '"' :: '"' :: escapeQuotes cs
    else c :: escapeQuotes cs

/-- Render one field under minimal quoting as in the csv module. -/
def csvField (s : String) : String :=
  if needsQuote s then "\"" ++ String.mk (escapeQuotes s.data) ++ "\"" else s

/-- Join rendered fields with the `,` delimiter. -/
def joinComma : List String → String
  | [] => ""
  | [x] => x
  | x :: y :: ys => x ++ "," ++ joinComma (y :: ys)

/-- A row body, without its line terminator. -/
def csvLine (fields : List String) : String :=
  joinComma (fields.map csvField)

/-- A full csv row: the body followed by the default writer terminator `\r\n`. -/
def csvRow (fields : List String) : String :=
  csvLine fields ++ "\r\n"

/-- Concatenate rendered rows. -/
def joinAll : List String → String
  | [] => ""
  | x :: xs => x ++ joinAll xs

/-- The fixed `fieldnames` list of the `DictWriter`. -/
def headerFields : List String :=
  ["ID", "Name", "Sex", "Birth Date", "Birth Place", "Death Date", "Death Place"]

/-- The seven schema values the projector reads from a record (the
`clean_record` dictionary, absent keys defaulting to `''`). -/
def fieldsOf (r : Record) : List String :=
  [r.ID, r.Name.getD "", r.Sex.getD "", r.birthDate.getD "",
   r.birthPlace.getD "", r.deathDate.getD "", r.deathPlace.getD ""]

/-- The csv row emitted for one individual record. -/
def rowFor (r : Record) : String :=
  csvRow (fieldsOf r)

/-- Model of `GedcomParser.to_csv`: header plus one row per individual, but only when
the individuals list is non-empty (`if self.individuals:`). -/
def to_csv (st : ParseState) : String :=
  if st.individuals.isEmpty then ""
  else csvRow headerFields ++ joinAll (st.individuals.map rowFor)

/-- Fallible rendering of the level-0 branch: the two subscripts the source
performs under its length guard are explicit `Option` accesses. -/
def handleLevel0Checked (st : ParseState) (parts : List String) : Option ParseState :=
  let st1 := saveRecord st
  if 3 ≤ parts.length then do
    let recordId ← parts[1]?
    let recordType ← parts[2]?
    if recordType = "INDI" || recordType = "FAM" then
      pure { st1 with
             currentRecord := some { ID := stripAts recordId, type := recordType },
             currentType := some recordType }
    else pure (clearCurrent st1)
  else pure (clearCurrent st1)

/-- Fallible rendering of the loop body: the unguarded `parts[0]` subscript of
the source is an explicit `Option` access, so a line on which any subscript
went out of bounds would yield `none`. -/
def processLineChecked (st : ParseState) (rawLine : String) : Option ParseState :=
  let line := pyRstrip rawLine
  if line = "" then pure st
  else do
    let parts := pySplit2 line
    let level ← parts[0]?
    if level = "0" then handleLevel0Checked st parts
    else if level = "1" then
      pure (match st.currentRecord with
            | some r =>
              let tag := (parts[1]?).getD ""
              let value := (parts[2]?).getD ""
              { st with currentRecord := some (handleLevel1 r tag value) }
            | none => st)
    else if level = "2" then
      pure (match st.currentRecord with
            | some r =>
              let tag := (parts[1]?).getD ""
              let value := (parts[2]?).getD ""
              { st with currentRecord := some (handleLevel2 r tag value) }
            | none => st)
    else pure st

/-- Fallible rendering of the whole parse loop. -/
def parseChecked (content : String) : Option ParseState := do
  let st ← List.foldlM processLineChecked {}
    ((splitNl (pyStrip content).data).map String.mk)
  pure (saveRecord st)

/-- Fallible rendering of the whole pipeline: `none` would mean the source
raised on some subscript. -/
def convertChecked (content : String) : Option String :=
  (parseChecked content).map to_csv

end GedcomParser

/-- Model of `convert_gedcom_to_csv`: the whole assemble-then-project pipeline. -/
def convert_gedcom_to_csv (content : String) : String :=
  GedcomParser.to_csv (GedcomParser.parse content)

/-- Agreement of two records on the seven schema fields the projector reads. -/
def agreeOnSchema (r1 r2 : Record) : Prop :=
  r1.ID = r2.ID ∧ r1.Name = r2.Name ∧ r1.Sex = r2.Sex ∧
  r1.birthDate = r2.birthDate ∧ r1.birthPlace = r2.birthPlace ∧
  r1.deathDate = r2.deathDate ∧ r1.deathPlace = r2.deathPlace

/-- A sample open record awaiting birth detail, used to instantiate theorems. -/
def sampleBirthPending : Record :=
  { ID := "I9", type := "INDI", birtNext := true }

/-- A sample open record awaiting death detail, used to instantiate theorems. -/
def sampleDeathPending : Record :=
  { ID := "I8", type := "INDI", deatNext := true }

/-- A sample loop state with an open individual record. -/
def sampleState : ParseState :=
  { currentRecord := some sampleBirthPending, currentType := some "INDI" }

/-- The P5 example input of the specification, eight lines describing one
individual with birth and death events. -/
def p5Input : String :=
  "0 @I1@ INDI\n1 NAME Jane /Doe/\n1 BIRT\n2 DATE 1 JAN 1900\n2 PLAC Springfield\n1 DEAT\n2 DATE 2 FEB 1980\n2 PLAC Capital City"


/-- Any line splits into one, two, or three fields. -/
theorem pySplit2_shape (s : String) :
    (∃ a, pySplit2 s = [a]) ∨ (∃ a b, pySplit2 s = [a, b]) ∨
    (∃ a b c, pySplit2 s = [a, b, c]) := by
  unfold pySplit2
  cases h : breakSp s.data with
  | mk a o =>
    cases o with
    | none => exact Or.inl ⟨String.mk a, by simp⟩
    | some r1 =>
      cases h2 : breakSp r1 with
      | mk b o2 =>
        cases o2 with
        | none => exact Or.inr (Or.inl ⟨String.mk a, String.mk b, by simp [h2]⟩)
        | some r2 =>
          exact Or.inr (Or.inr ⟨String.mk a, String.mk b, String.mk r2, by simp [h2]⟩)

namespace GedcomParser

/-- The fallible level-0 branch never fails and agrees with the branch. -/
theorem handleLevel0Checked_eq (st : ParseState) (parts : List String) :
    handleLevel0Checked st parts = some (handleLevel0 st parts) := by
  unfold handleLevel0Checked handleLevel0
  by_cases hl : 3 ≤ parts.length
  · match parts, hl with
    | a :: b :: c :: rest, _ =>
      by_cases hC : c = "INDI" <;> by_cases hD : c = "FAM" <;>
        simp [hC, hD, Option.bind]
  · simp [hl]

/-- The fallible loop body never fails and agrees with the loop body. -/
theorem processLineChecked_eq (st : ParseState) (l : String) :
    processLineChecked st l = some (processLine st l) := by
  unfold processLineChecked processLine
  by_cases h : pyRstrip l = ""
  · simp [h]
  · rcases pySplit2_shape (pyRstrip l) with ⟨a, hp⟩ | ⟨a, b, hp⟩ | ⟨a, b, c, hp⟩ <;>
      simp only [h, if_false, hp] <;>
      by_cases h0 : a = "0" <;>
      by_cases h1 : a = "1" <;>
      by_cases h2 : a = "2" <;>
      simp [h0, h1, h2, handleLevel0Checked_eq]

/-- Folding the fallible loop body never fails and agrees with the loop. -/
theorem foldlM_processLineChecked (ls : List String) (st : ParseState) :
    List.foldlM processLineChecked st ls = some (ls.foldl processLine st) := by
  induction ls generalizing st with
  | nil => rfl
  | cons l ls ih =>
    rw [List.foldl_cons]
    calc List.foldlM processLineChecked st (l :: ls)
        = processLineChecked st l >>= fun s => List.foldlM processLineChecked s ls := rfl
      _ = some (processLine st l) >>= fun s => List.foldlM processLineChecked s ls := by
            rw [processLineChecked_eq]
      _ = List.foldlM processLineChecked (processLine st l) ls := rfl
      _ = some (ls.foldl processLine (processLine st l)) := ih _

/-- The fallible parse never fails and agrees with the parse. -/
theorem parseChecked_eq (content : String) :
    parseChecked content = some (parse content) := by
  unfold parseChecked parse
  rw [foldlM_processLineChecked]
  rfl

end GedcomParser

/-- C1: the claim says `toCsv` always emits the header row, so that an input
with no INDI records yields exactly the header row.  False: on the HEAD/TRLR
skeleton the pipeline returns the empty string, which is not the header row. -/
theorem C1_counterexample :
    convert_gedcom_to_csv "0 HEAD\n0 TRLR" = "" ∧
    ("" : String) ≠ GedcomParser.csvRow GedcomParser.headerFields := by
  constructor
  · decide
  · decide

/-- C1 (amended): the header row is emitted exactly when the individuals
sequence is non-empty; with no individuals the output is the empty string
(zero rows, no header). -/
theorem C1_header_iff_individuals (st : ParseState) :
    (st.individuals = [] → GedcomParser.to_csv st = "") ∧
    (st.individuals ≠ [] →
      ∃ rest, GedcomParser.to_csv st =
        GedcomParser.csvRow GedcomParser.headerFields ++ rest) := by
  constructor
  · intro h
    unfold GedcomParser.to_csv
    rw [h]
    rfl
  · intro h
    cases hx : st.individuals with
    | nil => exact absurd hx h
    | cons a l =>
      refine ⟨GedcomParser.joinAll ((a :: l).map GedcomParser.rowFor), ?_⟩
      unfold GedcomParser.to_csv
      rw [hx]
      rfl

/-- C1 witness: the empty state produces the empty string, and a state with
one individual starts with the header row. -/
theorem C1_witness :
    GedcomParser.to_csv {} = "" ∧
    ∃ rest, GedcomParser.to_csv { individuals := [{ ID := "I1", type := "INDI" }] } =
      GedcomParser.csvRow GedcomParser.headerFields ++ rest :=
  ⟨(C1_header_iff_individuals {}).1 rfl,
   (C1_header_iff_individuals { individuals := [{ ID := "I1", type := "INDI" }] }).2
     (by decide)⟩

/-- C2: the claim says the P5 example yields the row
`I1,Jane Doe,,1 JAN 1900,Springfield,2 FEB 1980,Capital City`.  False: the
pipeline output differs (the places are empty, because each DATE line already
cleared the pending flag before the PLAC line arrived). -/
theorem C2_counterexample :
    convert_gedcom_to_csv p5Input ≠
      GedcomParser.csvRow GedcomParser.headerFields ++
        "I1,Jane Doe,,1 JAN 1900,Springfield,2 FEB 1980,Capital City\r\n" := by
  decide

/-- C2 (amended): the P5 example yields the single data row
`I1,Jane Doe,,1 JAN 1900,,2 FEB 1980,` — birth and death dates attributed to
the correct events, Sex empty, and both places empty since DATE cleared the
pending flag before each PLAC line. -/
theorem C2_row :
    convert_gedcom_to_csv p5Input =
      "ID,Name,Sex,Birth Date,Birth Place,Death Date,Death Place\r\nI1,Jane Doe,,1 JAN 1900,,2 FEB 1980,\r\n" := by
  decide

/-- C3: the claim says BIRT followed by DEAT with no intervening DATE loses
the birth-pending state so the next level-2 DATE sets deathDate.  False: the
two flags are independent keys and DATE checks the birth flag first, so the
next DATE sets birthDate and deathDate stays unset. -/
theorem C3_counterexample :
    ((GedcomParser.parse "0 @I1@ INDI\n1 BIRT\n1 DEAT\n2 DATE 3 MAR 1950").individuals.map
      fun r => (r.birthDate, r.deathDate)) = [(some "3 MAR 1950", none)] := by
  decide

/-- C3 (amended): within an open record already awaiting birth detail, a DEAT
line sets the death flag while keeping the birth flag, and the next level-2
DATE is attributed to birth: it sets birthDate, clears only the birth flag,
and leaves deathDate and the death flag untouched. -/
theorem C3_flags_independent (r : Record) (v : String) (hb : r.birtNext = true) :
    (GedcomParser.handleLevel1 r "DEAT" "").birtNext = true ∧
    (GedcomParser.handleLevel1 r "DEAT" "").deatNext = true ∧
    GedcomParser.handleLevel2 (GedcomParser.handleLevel1 r "DEAT" "") "DATE" v =
      { r with deatNext := true, birthDate := some v, birtNext := false } ∧
    (GedcomParser.handleLevel2 (GedcomParser.handleLevel1 r "DEAT" "") "DATE" v).deathDate =
      r.deathDate := by
  unfold GedcomParser.handleLevel1 GedcomParser.handleLevel2
  simp [hb]

/-- C3 witness: instantiation at a concrete record awaiting birth detail. -/
theorem C3_witness :
    (GedcomParser.handleLevel1 sampleBirthPending "DEAT" "").birtNext = true ∧
    (GedcomParser.handleLevel1 sampleBirthPending "DEAT" "").deatNext = true ∧
    GedcomParser.handleLevel2 (GedcomParser.handleLevel1 sampleBirthPending "DEAT" "") "DATE" "3 MAR 1950" =
      { sampleBirthPending with deatNext := true, birthDate := some "3 MAR 1950", birtNext := false } ∧
    (GedcomParser.handleLevel2 (GedcomParser.handleLevel1 sampleBirthPending "DEAT" "") "DATE" "3 MAR 1950").deathDate =
      sampleBirthPending.deathDate :=
  C3_flags_independent sampleBirthPending "3 MAR 1950" rfl

/-- C4: the claim says an open record holds at most one pending-event flag
(never both) and that no flag is persisted past finalization.  False: after
`0 @I2@ INDI`, `1 BIRT`, `1 DEAT` the finalized record stored in the
individuals collection carries both flags. -/
theorem C4_counterexample :
    ((GedcomParser.parse "0 @I2@ INDI\n1 BIRT\n1 DEAT").individuals.map
      fun r => (r.birtNext, r.deatNext)) = [(true, true)] := by
  decide

/-- C4 (amended): a record may hold both pending flags at once; a level-2
DATE clears exactly the flag it consumes (birth preferred over death); and
finalization appends the record to its collection unchanged, so flags still
set at that point are persisted into the collection. -/
theorem C4_flag_clearing (r : Record) (v : String) (st : ParseState) :
    (r.birtNext = true →
      (GedcomParser.handleLevel2 r "DATE" v).birtNext = false ∧
      (GedcomParser.handleLevel2 r "DATE" v).deatNext = r.deatNext) ∧
    (r.birtNext = false → r.deatNext = true →
      (GedcomParser.handleLevel2 r "DATE" v).deatNext = false ∧
      (GedcomParser.handleLevel2 r "DATE" v).birtNext = false) ∧
    (st.currentRecord = some r → st.currentType = some "INDI" →
      (GedcomParser.saveRecord st).individuals = st.individuals ++ [r]) := by
  refine ⟨fun hb => ?_, fun hb hd => ?_, fun hr ht => ?_⟩
  · unfold GedcomParser.handleLevel2
    simp [hb]
  · unfold GedcomParser.handleLevel2
    simp [hb, hd]
  · unfold GedcomParser.saveRecord
    rw [hr, ht]
    rfl

/-- C4 witness: instantiation at concrete pending records and a concrete open
state. -/
theorem C4_witness :
    ((GedcomParser.handleLevel2 sampleBirthPending "DATE" "d").birtNext = false ∧
     (GedcomParser.handleLevel2 sampleBirthPending "DATE" "d").deatNext =
       sampleBirthPending.deatNext) ∧
    ((GedcomParser.handleLevel2 sampleDeathPending "DATE" "d").deatNext = false ∧
     (GedcomParser.handleLevel2 sampleDeathPending "DATE" "d").birtNext = false) ∧
    (GedcomParser.saveRecord sampleState).individuals =
      sampleState.individuals ++ [sampleBirthPending] :=
  ⟨(C4_flag_clearing sampleBirthPending "d" sampleState).1 rfl,
   (C4_flag_clearing sampleDeathPending "d" sampleState).2.1 rfl rfl,
   (C4_flag_clearing sampleBirthPending "d" sampleState).2.2 rfl rfl⟩

/-- C5: within an open record, a level-2 DATE sets the date of the pending
kind and clears its flag; a level-2 PLAC sets the place of the pending kind
without clearing the flag; with no pending flag both are ignored. -/
theorem C5_level2_dispatch (r : Record) (v : String) :
    (r.birtNext = true → r.deatNext = false →
      GedcomParser.handleLevel2 r "DATE" v =
        { r with birthDate := some v, birtNext := false } ∧
      GedcomParser.handleLevel2 r "PLAC" v = { r with birthPlace := some v } ∧
      (GedcomParser.handleLevel2 r "PLAC" v).birtNext = true) ∧
    (r.birtNext = false → r.deatNext = true →
      GedcomParser.handleLevel2 r "DATE" v =
        { r with deathDate := some v, deatNext := false } ∧
      GedcomParser.handleLevel2 r "PLAC" v = { r with deathPlace := some v } ∧
      (GedcomParser.handleLevel2 r "PLAC" v).deatNext = true) ∧
    (r.birtNext = false → r.deatNext = false →
      GedcomParser.handleLevel2 r "DATE" v = r ∧
      GedcomParser.handleLevel2 r "PLAC" v = r) := by
  refine ⟨fun hb hd => ?_, fun hb hd => ?_, fun hb hd => ?_⟩ <;>
    unfold GedcomParser.handleLevel2 <;> simp [hb, hd]

/-- C5 witness: instantiation at concrete records in each of the three
pending configurations. -/
theorem C5_witness :
    (GedcomParser.handleLevel2 sampleBirthPending "DATE" "d" =
        { sampleBirthPending with birthDate := some "d", birtNext := false } ∧
      GedcomParser.handleLevel2 sampleBirthPending "PLAC" "d" =
        { sampleBirthPending with birthPlace := some "d" } ∧
      (GedcomParser.handleLevel2 sampleBirthPending "PLAC" "d").birtNext = true) ∧
    (GedcomParser.handleLevel2 sampleDeathPending "DATE" "d" =
        { sampleDeathPending with deathDate := some "d", deatNext := false } ∧
      GedcomParser.handleLevel2 sampleDeathPending "PLAC" "d" =
        { sampleDeathPending with deathPlace := some "d" } ∧
      (GedcomParser.handleLevel2 sampleDeathPending "PLAC" "d").deatNext = true) ∧
    (GedcomParser.handleLevel2 { ID := "I7", type := "INDI" } "DATE" "d" =
        { ID := "I7", type := "INDI" } ∧
      GedcomParser.handleLevel2 { ID := "I7", type := "INDI" } "PLAC" "d" =
        { ID := "I7", type := "INDI" }) :=
  ⟨(C5_level2_dispatch sampleBirthPending "d").1 rfl rfl,
   (C5_level2_dispatch sampleDeathPending "d").2.1 rfl rfl,
   (C5_level2_dispatch { ID := "I7", type := "INDI" } "d").2.2 rfl rfl⟩

/-- C6: for every input string the pipeline completes without raising: the
fallible rendering, in which every subscript the source performs is an
explicit Option access, returns `some` of the pipeline result on every
input; and a line with a missing value field is handled with the empty
string in its place. -/
theorem C6_never_fails :
    (∀ content : String,
      GedcomParser.convertChecked content = some (convert_gedcom_to_csv content)) ∧
    (∀ (st : ParseState) (r : Record), st.currentRecord = some r →
      GedcomParser.processLine st "1 SEX" =
        { st with currentRecord := some { r with Sex := some "" } }) := by
  constructor
  · intro content
    unfold GedcomParser.convertChecked convert_gedcom_to_csv
    rw [GedcomParser.parseChecked_eq]
    rfl
  · intro st r h
    obtain ⟨cr, ct, ind, fam⟩ := st
    simp only at h
    subst h
    rfl

/-- C6 witness: instantiation at a concrete input and a concrete open
state. -/
theorem C6_witness :
    GedcomParser.convertChecked "0 HEAD" = some (convert_gedcom_to_csv "0 HEAD") ∧
    GedcomParser.processLine sampleState "1 SEX" =
      { sampleState with currentRecord := some { sampleBirthPending with Sex := some "" } } :=
  ⟨C6_never_fails.1 "0 HEAD", C6_never_fails.2 sampleState sampleBirthPending rfl⟩

/-- C7: a level-0 line whose type tag is not INDI or FAM closes any open
record into its collection and leaves no record open; and while no record is
open, every non-level-0 line leaves the state unchanged, so such a block
contributes no row and does not disturb later records. -/
theorem C7_unknown_records_dropped :
    (∀ (st : ParseState) (rawLine : String),
      pyRstrip rawLine ≠ "" →
      ((pySplit2 (pyRstrip rawLine))[0]?).getD "" = "0" →
      ((pySplit2 (pyRstrip rawLine)).length < 3 ∨
        (((pySplit2 (pyRstrip rawLine))[2]?).getD "" ≠ "INDI" ∧
         ((pySplit2 (pyRstrip rawLine))[2]?).getD "" ≠ "FAM")) →
      GedcomParser.processLine st rawLine =
        GedcomParser.clearCurrent (GedcomParser.saveRecord st)) ∧
    (∀ (st : ParseState) (rawLine : String),
      st.currentRecord = none →
      ((pySplit2 (pyRstrip rawLine))[0]?).getD "" ≠ "0" →
      GedcomParser.processLine st rawLine = st) := by
  constructor
  · intro st rawLine hne h0 hbad
    unfold GedcomParser.processLine GedcomParser.handleLevel0
    rcases hbad with hlen | ⟨hI, hF⟩
    · simp [hne, h0, Nat.not_le.mpr hlen]
    · by_cases hlen3 : 3 ≤ (pySplit2 (pyRstrip rawLine)).length
      · simp [hne, h0, hlen3, hI, hF]
      · simp [hne, h0, hlen3]
  · intro st rawLine hrec h0
    by_cases hne : pyRstrip rawLine = ""
    · unfold GedcomParser.processLine
      simp [hne]
    · unfold GedcomParser.processLine
      simp [hne, h0, hrec]

/-- C7 witness: a `0 HEAD` line closes the open record of a concrete state,
and a nested line under a dropped block leaves the empty state unchanged. -/
theorem C7_witness :
    GedcomParser.processLine sampleState "0 HEAD" =
      GedcomParser.clearCurrent (GedcomParser.saveRecord sampleState) ∧
    GedcomParser.processLine {} "1 NAME X" = {} :=
  ⟨C7_unknown_records_dropped.1 sampleState "0 HEAD" (by decide) (by decide)
      (Or.inl (by decide)),
   C7_unknown_records_dropped.2 {} "1 NAME X" rfl (by decide)⟩

/-- C8: every non-blank line whose level field is not exactly `0`, `1`, or
`2` is ignored entirely: the whole loop state (open record, collections,
pending flags) is unchanged. -/
theorem C8_other_levels_ignored (st : ParseState) (rawLine : String)
    (hne : pyRstrip rawLine ≠ "")
    (h0 : ((pySplit2 (pyRstrip rawLine))[0]?).getD "" ≠ "0")
    (h1 : ((pySplit2 (pyRstrip rawLine))[0]?).getD "" ≠ "1")
    (h2 : ((pySplit2 (pyRstrip rawLine))[0]?).getD "" ≠ "2") :
    GedcomParser.processLine st rawLine = st := by
  unfold GedcomParser.processLine
  simp [hne, h0, h1, h2]

/-- C8 witness: a level-3 line leaves a concrete state unchanged. -/
theorem C8_witness :
    GedcomParser.processLine sampleState "3 NOTE deep" = sampleState :=
  C8_other_levels_ignored sampleState "3 NOTE deep" (by decide) (by decide)
    (by decide) (by decide)

/-- C9: the csv output is a concatenation of rows each terminated by the
same CRLF sequence: no rows at all when the individuals list is empty,
otherwise one header row plus one row per individual. -/
theorem C9_crlf_rows (st : ParseState) :
    ∃ rows : List String,
      GedcomParser.to_csv st =
        GedcomParser.joinAll (rows.map fun r => r ++ "\r\n") ∧
      rows.length = if st.individuals.isEmpty then 0 else st.individuals.length + 1 := by
  by_cases h : st.individuals.isEmpty
  · exact ⟨[], by simp [GedcomParser.to_csv, h, GedcomParser.joinAll]⟩
  · refine ⟨GedcomParser.csvLine GedcomParser.headerFields ::
      st.individuals.map (fun r => GedcomParser.csvLine (GedcomParser.fieldsOf r)), ?_, ?_⟩
    · unfold GedcomParser.to_csv
      rw [if_neg (by simp [h])]
      simp only [List.map_cons, List.map_map]
      rfl
    · simp [h]

/-- Two records agreeing on the seven schema fields are rendered to the
same csv row. -/
theorem rowFor_congr (r1 r2 : Record) (h : agreeOnSchema r1 r2) :
    GedcomParser.rowFor r1 = GedcomParser.rowFor r2 := by
  obtain ⟨h1, h2, h3, h4, h5, h6, h7⟩ := h
  unfold GedcomParser.rowFor GedcomParser.fieldsOf
  rw [h1, h2, h3, h4, h5, h6, h7]

/-- Pointwise schema agreement of two record lists gives equal row lists. -/
theorem mapRowFor_congr (l1 l2 : List Record)
    (h : List.Forall₂ agreeOnSchema l1 l2) :
    l1.map GedcomParser.rowFor = l2.map GedcomParser.rowFor := by
  induction h with
  | nil => rfl
  | cons hr ht ih =>
    simp only [List.map_cons, ih]
    rw [rowFor_congr _ _ hr]

/-- C10: each data row is determined solely by the seven schema fields; the
other keys of a record (type, Husband, Wife, Children, pending flags) never
influence the output, so two individuals lists agreeing pointwise on the
seven fields produce identical csv output. -/
theorem C10_schema_determines_rows (st1 st2 : ParseState)
    (h : List.Forall₂ agreeOnSchema st1.individuals st2.individuals) :
    GedcomParser.to_csv st1 = GedcomParser.to_csv st2 := by
  have hmap := mapRowFor_congr _ _ h
  have hlen := List.Forall₂.length_eq h
  have hemp : st1.individuals.isEmpty = st2.individuals.isEmpty := by
    cases h1 : st1.individuals <;> cases h2 : st2.individuals <;> simp_all
  unfold GedcomParser.to_csv
  rw [hemp, hmap]

/-- C10 witness: two single-record states differing only in non-schema keys
(type, pending flags, Husband, Children) produce identical output. -/
theorem C10_witness :
    GedcomParser.to_csv
        { individuals := [{ ID := "I1", type := "INDI", Name := some "A",
                            birtNext := true }] } =
      GedcomParser.to_csv
        { individuals := [{ ID := "I1", type := "FAM", Name := some "A",
                            deatNext := true, Husband := some "H",
                            Children := some ["C1"] }] } :=
  C10_schema_determines_rows _ _
    (List.Forall₂.cons ⟨rfl, rfl, rfl, rfl, rfl, rfl, rfl⟩ List.Forall₂.nil)
